import Mathlib

/-!
Shallow embedding of the connection-management core of sniproxy
(src/connection.c).  The external collaborators (Buffer, the listener's
parse/lookup hooks, the kernel's recv/send/accept results) are supplied as
explicit inputs; everything else is translated from connection.c line by
line.  Socket `close` calls are made observable by returning the list of
file descriptors closed by an operation.
-/

set_option autoImplicit false

namespace Sniproxy

/-- Linux errno value for EAGAIN. -/
def EAGAIN : Nat := 11

/-- Linux errno value for EWOULDBLOCK (same as EAGAIN on Linux). -/
def EWOULDBLOCK : Nat := 11

/-- Linux errno value for EINTR. -/
def EINTR : Nat := 4

/-- Reactor bit-set ceiling, the usual value of FD_SETSIZE. -/
def FD_SETSIZE : Int := 1024

/-- The MAX macro from connection.c: `((X) > (Y) ? (X) : (Y))`. -/
def MAX (x y : Int) : Int := if x > y then x else y

/-- IS_TEMPORARY_SOCKERR from connection.c:
`(_errno == EAGAIN || _errno == EWOULDBLOCK || _errno == EINTR)`. -/
def IS_TEMPORARY_SOCKERR (e : Nat) : Bool :=
  e == EAGAIN || e == EWOULDBLOCK || e == EINTR

/-- Modelled from the spec: the Buffer collaborator (buffer.c is not part of
src/): a bounded byte FIFO with capacity `size` and fill `data`. -/
structure Buffer where
  data : List Nat
  size : Nat
  deriving DecidableEq

/-- Modelled from the spec: current fill `len` of a buffer. -/
def buffer_len (b : Buffer) : Nat := b.data.length

/-- Modelled from the spec: `room() = size - len`. -/
def buffer_room (b : Buffer) : Nat := b.size - buffer_len b

/-- Modelled from the spec: `peek(dst, n)` returns at most `min n len` bytes
without consuming them. -/
def buffer_peek (b : Buffer) (n : Nat) : List Nat := b.data.take n

/-- Outcome of one recv call on a socket, as seen by `buffer_recv`:
either a chunk of bytes delivered by the kernel, an orderly EOF
(recv returned 0), or an error with its errno. -/
inductive RecvEvent where
  | data (bs : List Nat)
  | eof
  | err (e : Nat)
  deriving DecidableEq

/-- Outcome of one send call on a socket, as seen by `buffer_send`:
either the kernel accepted `k` bytes, or an error with its errno. -/
inductive SendEvent where
  | sent (k : Nat)
  | err (e : Nat)
  deriving DecidableEq

/-- Modelled from the spec: `recv_from_fd(fd)` reads up to `room()` bytes
non-blockingly; returns the new buffer, the byte count (0 = orderly EOF,
negative = error), and the errno of a failure. -/
def buffer_recv (b : Buffer) (ev : RecvEvent) : Buffer × Int × Nat :=
  match ev with
  | .data bs =>
      let taken := bs.take (buffer_room b)
      ({ b with data := b.data ++ taken }, (taken.length : Int), 0)
  | .eof => (b, 0, 0)
  | .err e => (b, -1, e)

/-- Modelled from the spec: `send_to_fd(fd)` writes up to `len` bytes
non-blockingly and advances the FIFO by the amount sent; returns the new
buffer, the byte count sent (negative = error), and the errno of a
failure. -/
def buffer_send (b : Buffer) (ev : SendEvent) : Buffer × Int × Nat :=
  match ev with
  | .sent k =>
      let a := min k (buffer_len b)
      ({ b with data := b.data.drop a }, (a : Int), 0)
  | .err e => (b, -1, e)

/-- Connection states from connection.h, as used by connection.c. -/
inductive ConnState where
  | NEW
  | ACCEPTED
  | CONNECTED
  | SERVER_CLOSED
  | CLIENT_CLOSED
  | CLOSED
  deriving DecidableEq

/-- One half-endpoint of a connection: its socket fd and its buffer
(addresses are not modelled; no claim concerns them). -/
structure HalfConn where
  sockfd : Int
  buffer : Buffer
  deriving DecidableEq

/-- The Connection record of connection.h as used by connection.c. -/
structure Connection where
  state : ConnState
  client : HalfConn
  server : HalfConn
  hostname : Option String
  deriving DecidableEq

/-- Result of the listener's `parse_packet` per the documented interface:
-1 incomplete, -2 no hostname, below -2 unparseable, otherwise success with
the extracted hostname. -/
inductive ParseResult where
  | incomplete
  | noHostname
  | unparseable (code : Int)
  | ok (hostname : String)
  deriving DecidableEq

/-- The per-connection external inputs of one dispatch tick: one kernel
outcome per possible recv/send call, and the listener's parse and lookup
hooks. -/
structure Oracle where
  clientRecv : RecvEvent
  serverRecv : RecvEvent
  clientSend : SendEvent
  serverSend : SendEvent
  parse : List Nat → ParseResult
  lookup : String → Int

/-- close_client_socket (connection.c:478-488): close the client fd; the
next state depends on the previous state.  Returns the record and the list
of fds closed. -/
def close_client_socket (c : Connection) : Connection × List Int :=
  ({ c with state := if c.state = ConnState.CONNECTED
                     then ConnState.CLIENT_CLOSED
                     else ConnState.CLOSED },
   [c.client.sockfd])

/-- close_server_socket (connection.c:493-503): close the server fd; the
next state depends on the previous state.  Returns the record and the list
of fds closed. -/
def close_server_socket (c : Connection) : Connection × List Int :=
  ({ c with state := if c.state = ConnState.CLIENT_CLOSED
                     then ConnState.CLOSED
                     else ConnState.SERVER_CLOSED },
   [c.server.sockfd])

/-- close_connection (connection.c:463-473): close whichever sockets the
current state says are open; the second test reads the state left by the
first close. -/
def close_connection (c : Connection) : Connection × List Int :=
  let s1 :=
    if c.state = ConnState.CONNECTED ∨ c.state = ConnState.ACCEPTED ∨
       c.state = ConnState.SERVER_CLOSED
    then close_client_socket c
    else (c, [])
  let s2 :=
    if s1.1.state = ConnState.CONNECTED ∨ s1.1.state = ConnState.CLIENT_CLOSED
    then close_server_socket s1.1
    else (s1.1, [])
  (s2.1, s1.2 ++ s2.2)

/-- handle_connection_client_hello (connection.c:398-461): peek at most
1460 bytes from the client buffer, parse, look up the upstream, and on
success store the hostname and promote to CONNECTED.  Returns the record
and the fds closed along the way. -/
def handle_connection_client_hello (con : Connection)
    (parse : List Nat → ParseResult) (lookup : String → Int) :
    Connection × List Int :=
  let buf := buffer_peek con.client.buffer 1460
  match parse buf with
  | .incomplete => (con, [])
  | .noHostname => close_connection con
  | .unparseable _ => close_connection con
  | .ok hostname =>
      let sockfd := lookup hostname
      let con := { con with server := { con.server with sockfd := sockfd } }
      if sockfd < 0 then
        close_connection con
      else if sockfd > FD_SETSIZE then
        let s1 := close_server_socket con
        let s2 := close_connection s1.1
        (s2.1, s1.2 ++ s2.2)
      else
        ({ con with hostname := some hostname, state := ConnState.CONNECTED },
         [])

/-- handle_connection_client_rx (connection.c:324-343): recv into the
client buffer; fatal error or orderly close returns err = 1; otherwise run
the client-hello handoff when still ACCEPTED and touch the connection to
the head of the queue.  Returns (record, err, touched). -/
def handle_connection_client_rx (con : Connection) (ev : RecvEvent)
    (parse : List Nat → ParseResult) (lookup : String → Int) :
    Connection × Nat × Bool :=
  let r := buffer_recv con.client.buffer ev
  let con := { con with client := { con.client with buffer := r.1 } }
  let n := r.2.1
  let e := r.2.2
  if n < 0 ∧ ¬ IS_TEMPORARY_SOCKERR e then (con, 1, false)
  else if n = 0 then (con, 1, false)
  else
    let con := if con.state = ConnState.ACCEPTED
               then (handle_connection_client_hello con parse lookup).1
               else con
    (con, 0, true)

/-- handle_connection_client_tx (connection.c:345-358): send the server
buffer to the client fd; only a non-temporary error is fatal; success
touches the connection to the head of the queue. -/
def handle_connection_client_tx (con : Connection) (ev : SendEvent) :
    Connection × Nat × Bool :=
  let r := buffer_send con.server.buffer ev
  let con := { con with server := { con.server with buffer := r.1 } }
  if r.2.1 < 0 ∧ ¬ IS_TEMPORARY_SOCKERR r.2.2 then (con, 1, false)
  else (con, 0, true)

/-- handle_connection_server_rx (connection.c:360-375): recv into the
server buffer; fatal error or orderly close returns err = 1. -/
def handle_connection_server_rx (con : Connection) (ev : RecvEvent) :
    Connection × Nat × Bool :=
  let r := buffer_recv con.server.buffer ev
  let con := { con with server := { con.server with buffer := r.1 } }
  if r.2.1 < 0 ∧ ¬ IS_TEMPORARY_SOCKERR r.2.2 then (con, 1, false)
  else if r.2.1 = 0 then (con, 1, false)
  else (con, 0, true)

/-- handle_connection_server_tx (connection.c:377-390): send the client
buffer to the server fd; only a non-temporary error is fatal. -/
def handle_connection_server_tx (con : Connection) (ev : SendEvent) :
    Connection × Nat × Bool :=
  let r := buffer_send con.client.buffer ev
  let con := { con with client := { con.client with buffer := r.1 } }
  if r.2.1 < 0 ∧ ¬ IS_TEMPORARY_SOCKERR r.2.2 then (con, 1, false)
  else (con, 0, true)

/-- The ACCEPTED arm of the switch in handle_connections
(connection.c:204-216), also reached by fall-through from CONNECTED.
`t0` is whether an earlier handler of the same visit already touched the
connection to the head.  Returns (surviving record, touched). -/
def handle_client_half (rfds wfds : Int → Bool) (o : Oracle)
    (c : Connection) (t0 : Bool) : Option Connection × Bool :=
  let s1 := if rfds c.client.sockfd ∧ 0 < buffer_room c.client.buffer
            then handle_connection_client_rx c o.clientRecv o.parse o.lookup
            else (c, 0, false)
  let s2 := if s1.2.1 = 0 ∧ wfds s1.1.client.sockfd ∧
               0 < buffer_len s1.1.server.buffer
            then
              let r := handle_connection_client_tx s1.1 o.clientSend
              (r.1, r.2.1, s1.2.2 || r.2.2)
            else s1
  let c3 := if s2.2.1 ≠ 0 then (close_client_socket s2.1).1 else s2.1
  (some c3, t0 || s2.2.2)

/-- The body of the TAILQ_FOREACH_SAFE loop of handle_connections
(connection.c:187-242) for one connection: dispatch on its state, run the
per-side handlers guarded by the readiness sets, close failed sides, and
reap records already CLOSED.  Returns `none` when the record is removed
and freed, and whether any successful handler touched it to the head. -/
def handle_one_connection (rfds wfds : Int → Bool) (o : Oracle)
    (c : Connection) : Option Connection × Bool :=
  match c.state with
  | ConnState.CONNECTED =>
      let s1 := if rfds c.server.sockfd ∧ 0 < buffer_room c.server.buffer
                then handle_connection_server_rx c o.serverRecv
                else (c, 0, false)
      let s2 := if s1.2.1 = 0 ∧ wfds s1.1.server.sockfd ∧
                   0 < buffer_len s1.1.client.buffer
                then
                  let r := handle_connection_server_tx s1.1 o.serverSend
                  (r.1, r.2.1, s1.2.2 || r.2.2)
                else s1
      let c3 := if s2.2.1 ≠ 0 then (close_server_socket s2.1).1 else s2.1
      handle_client_half rfds wfds o c3 s2.2.2
  | ConnState.ACCEPTED =>
      handle_client_half rfds wfds o c false
  | ConnState.SERVER_CLOSED =>
      let s1 := if wfds c.client.sockfd ∧ 0 < buffer_len c.server.buffer
                then handle_connection_client_tx c o.clientSend
                else (c, 0, false)
      let c2 := if s1.2.1 ≠ 0 ∨ buffer_len s1.1.server.buffer = 0
                then (close_client_socket s1.1).1
                else s1.1
      (some c2, s1.2.2)
  | ConnState.CLIENT_CLOSED =>
      let s1 := if wfds c.server.sockfd ∧ 0 < buffer_len c.client.buffer
                then handle_connection_server_tx c o.serverSend
                else (c, 0, false)
      let c2 := if s1.2.1 ≠ 0 ∨ buffer_len s1.1.client.buffer = 0
                then (close_server_socket s1.1).1
                else s1.1
      (some c2, s1.2.2)
  | ConnState.CLOSED => (none, false)
  | ConnState.NEW => (some c, false)

/-- The walk of handle_connections over the saved-next list.  A record
touched by move_to_head_of_queue ends the tick ahead of every untouched
record, touched records ordered by most recent visit first and untouched
records keeping their relative order; `headAcc` collects the touched
records (most recent first) and `tailAcc` the untouched survivors in
reverse. -/
def handle_connections_walk (rfds wfds : Int → Bool) :
    List (Connection × Oracle) → List Connection → List Connection →
    List Connection
  | [], headAcc, tailAcc => headAcc ++ tailAcc.reverse
  | p :: rest, headAcc, tailAcc =>
      match handle_one_connection rfds wfds p.2 p.1 with
      | (none, _) => handle_connections_walk rfds wfds rest headAcc tailAcc
      | (some c, true) =>
          handle_connections_walk rfds wfds rest (c :: headAcc) tailAcc
      | (some c, false) =>
          handle_connections_walk rfds wfds rest headAcc (c :: tailAcc)

/-- handle_connections (connection.c:182-243): one dispatch tick over the
whole list, each connection paired with its external inputs, yielding the
post-tick list. -/
def handle_connections (rfds wfds : Int → Bool)
    (inputs : List (Connection × Oracle)) : List Connection :=
  handle_connections_walk rfds wfds inputs [] []

/-- Modelled from the spec: `new_buffer` (buffer.c is not part of src/)
creates an empty FIFO of some fixed capacity, here a parameter. -/
def new_buffer (size : Nat) : Buffer := { data := [], size := size }

/-- new_connection (connection.c:505-531): a zeroed record in state NEW
with two fresh buffers and no hostname. -/
def new_connection (bufSize : Nat) : Connection :=
  { state := ConnState.NEW
  , client := { sockfd := 0, buffer := new_buffer bufSize }
  , server := { sockfd := 0, buffer := new_buffer bufSize }
  , hostname := none }

/-- accept_connection (connection.c:86-117): allocate a record, accept the
client fd (`fd` is the accept result, negative on failure; `allocOk` is
whether new_connection succeeded), reject over-ceiling fds, and on success
insert the ACCEPTED record at the head of the list.  Returns the new list
and the fds closed. -/
def accept_connection (fd : Int) (allocOk : Bool) (bufSize : Nat)
    (conns : List Connection) : List Connection × List Int :=
  if allocOk = false then (conns, [])
  else
    let c := new_connection bufSize
    let c := { c with client := { c.client with sockfd := fd } }
    if fd < 0 then (conns, [])
    else if fd > FD_SETSIZE then
      let s := close_client_socket c
      (conns, s.2)
    else
      ({ c with state := ConnState.ACCEPTED } :: conns, [])

/-- FD_SET on a set represented as a duplicate-free list: idempotent
insertion, matching a bit-set. -/
def fdset_add (fd : Int) (s : List Int) : List Int :=
  if fd ∈ s then s else fd :: s

/-- fd_set_connections (connection.c:135-180): walk the list adding each
connection's demands to the read and write sets and folding every
inspected fd into the running maximum; the CONNECTED arm falls through to
the ACCEPTED arm for the client side. -/
def fd_set_connections (conns : List Connection) (rfds wfds : List Int)
    (maxfd : Int) : List Int × List Int × Int :=
  match conns with
  | [] => (rfds, wfds, maxfd)
  | c :: rest =>
      match c.state with
      | ConnState.CONNECTED =>
          let rfds := if 0 < buffer_room c.server.buffer
                      then fdset_add c.server.sockfd rfds else rfds
          let wfds := if 0 < buffer_len c.client.buffer
                      then fdset_add c.server.sockfd wfds else wfds
          let maxfd := MAX maxfd c.server.sockfd
          let rfds := if 0 < buffer_room c.client.buffer
                      then fdset_add c.client.sockfd rfds else rfds
          let wfds := if 0 < buffer_len c.server.buffer
                      then fdset_add c.client.sockfd wfds else wfds
          fd_set_connections rest rfds wfds (MAX maxfd c.client.sockfd)
      | ConnState.ACCEPTED =>
          let rfds := if 0 < buffer_room c.client.buffer
                      then fdset_add c.client.sockfd rfds else rfds
          let wfds := if 0 < buffer_len c.server.buffer
                      then fdset_add c.client.sockfd wfds else wfds
          fd_set_connections rest rfds wfds (MAX maxfd c.client.sockfd)
      | ConnState.SERVER_CLOSED =>
          fd_set_connections rest rfds (fdset_add c.client.sockfd wfds)
            (MAX maxfd c.client.sockfd)
      | ConnState.CLIENT_CLOSED =>
          fd_set_connections rest rfds (fdset_add c.server.sockfd wfds)
            (MAX maxfd c.server.sockfd)
      | ConnState.CLOSED =>
          fd_set_connections rest rfds wfds maxfd
      | ConnState.NEW =>
          fd_set_connections rest rfds wfds maxfd

/-! Test fixtures: concrete connections, oracles and readiness sets used by
witnesses and counterexamples. -/

/-- A concrete connection record builder for witnesses. -/
def mkConn (st : ConnState) (cfd sfd : Int) (cdata : List Nat) (csz : Nat)
    (sdata : List Nat) (ssz : Nat) (h : Option String) : Connection :=
  { state := st
  , client := { sockfd := cfd, buffer := { data := cdata, size := csz } }
  , server := { sockfd := sfd, buffer := { data := sdata, size := ssz } }
  , hostname := h }

/-- An inert oracle: EOF on both recv sides, zero-byte sends, a parser that
always reports an incomplete request, and a failing lookup. -/
def oracle0 : Oracle :=
  { clientRecv := RecvEvent.eof
  , serverRecv := RecvEvent.eof
  , clientSend := SendEvent.sent 0
  , serverSend := SendEvent.sent 0
  , parse := fun _ => ParseResult.incomplete
  , lookup := fun _ => -1 }

/-- The empty readiness set. -/
def fdsNone : Int → Bool := fun _ => false

/-- The full readiness set. -/
def fdsAll : Int → Bool := fun _ => true

/-- Small helper lemmas about the close operations (shared by several
claim proofs). -/
theorem close_client_socket_fst (c : Connection) :
    (close_client_socket c).1 =
      { c with state := if c.state = ConnState.CONNECTED
                        then ConnState.CLIENT_CLOSED
                        else ConnState.CLOSED } := rfl

theorem close_server_socket_fst (c : Connection) :
    (close_server_socket c).1 =
      { c with state := if c.state = ConnState.CLIENT_CLOSED
                        then ConnState.CLOSED
                        else ConnState.SERVER_CLOSED } := rfl

theorem close_connection_client (c : Connection) :
    (close_connection c).1.client = c.client := by
  obtain ⟨st, cl, sv, hn⟩ := c
  cases st <;> rfl

theorem close_connection_hostname (c : Connection) :
    (close_connection c).1.hostname = c.hostname := by
  obtain ⟨st, cl, sv, hn⟩ := c
  cases st <;> rfl

theorem close_connection_server (c : Connection) :
    (close_connection c).1.server = c.server := by
  obtain ⟨st, cl, sv, hn⟩ := c
  cases st <;> rfl

theorem close_connection_accepted (c : Connection)
    (h : c.state = ConnState.ACCEPTED) :
    close_connection c = ((close_client_socket c).1, [c.client.sockfd]) := by
  obtain ⟨st, cl, sv, hn⟩ := c
  cases st <;> simp_all [close_connection, close_client_socket,
    close_server_socket]

/-- C5: `close_client_socket` maps CONNECTED to CLIENT_CLOSED and any other
state to CLOSED; `close_server_socket` maps CLIENT_CLOSED to CLOSED and any
other state to SERVER_CLOSED; each performs exactly one close, of the
corresponding socket's fd. -/
theorem close_socket_transitions (c : Connection) :
    ((close_client_socket c).1.state = ConnState.CLIENT_CLOSED ↔
      c.state = ConnState.CONNECTED) ∧
    (c.state ≠ ConnState.CONNECTED →
      (close_client_socket c).1.state = ConnState.CLOSED) ∧
    (close_client_socket c).2 = [c.client.sockfd] ∧
    ((close_server_socket c).1.state = ConnState.CLOSED ↔
      c.state = ConnState.CLIENT_CLOSED) ∧
    (c.state ≠ ConnState.CLIENT_CLOSED →
      (close_server_socket c).1.state = ConnState.SERVER_CLOSED) ∧
    (close_server_socket c).2 = [c.server.sockfd] := by
  obtain ⟨st, cl, sv, hn⟩ := c
  cases st <;> simp [close_client_socket, close_server_socket]

/-- Witness for C5 at a concrete ACCEPTED record. -/
theorem close_socket_transitions_witness :
    (close_client_socket
        (mkConn ConnState.ACCEPTED 3 0 [] 4 [] 4 none)).1.state =
      ConnState.CLOSED ∧
    (close_server_socket
        (mkConn ConnState.ACCEPTED 3 0 [] 4 [] 4 none)).1.state =
      ConnState.SERVER_CLOSED :=
  ⟨(close_socket_transitions (mkConn ConnState.ACCEPTED 3 0 [] 4 [] 4 none)).2.1
      (by decide),
   (close_socket_transitions (mkConn ConnState.ACCEPTED 3 0 [] 4 [] 4 none)).2.2.2.2.1
      (by decide)⟩

/-- A concrete one-letter hostname used by witnesses. -/
def hostw : String := String.mk ['h']

/-- C3: on an ACCEPTED connection, a successful client-hello handoff
(parse yields a hostname, the upstream lookup returns an in-range fd)
leaves the client buffer exactly as found — same length, no byte consumed,
lost or duplicated — while promoting the connection to CONNECTED; indeed
no branch of the handoff ever modifies the client buffer. -/
theorem hello_peek_idempotence (c : Connection)
    (parse : List Nat → ParseResult) (lookup : String → Int) :
    (handle_connection_client_hello c parse lookup).1.client.buffer =
      c.client.buffer ∧
    (∀ h, c.state = ConnState.ACCEPTED →
      parse (buffer_peek c.client.buffer 1460) = ParseResult.ok h →
      0 ≤ lookup h → lookup h ≤ FD_SETSIZE →
      (handle_connection_client_hello c parse lookup).1.state =
        ConnState.CONNECTED ∧
      (handle_connection_client_hello c parse lookup).1.hostname = some h ∧
      buffer_len (handle_connection_client_hello c parse lookup).1.client.buffer
        = buffer_len c.client.buffer) := by
  constructor
  · unfold handle_connection_client_hello
    dsimp only
    cases hp : parse (buffer_peek c.client.buffer 1460) <;> dsimp only <;>
      try rw [close_connection_client]
    split
    · rw [close_connection_client]
    · split
      · rw [close_connection_client, close_server_socket_fst]
      · rfl
  · intro h hacc hp hge hle
    unfold handle_connection_client_hello
    dsimp only
    rw [hp]
    dsimp only
    have h1 : ¬ lookup h < 0 := by omega
    have h2 : ¬ lookup h > FD_SETSIZE := by omega
    rw [if_neg h1, if_neg h2]
    exact ⟨rfl, rfl, rfl⟩

/-- Witness for C3 at a concrete ACCEPTED connection with 2 buffered
bytes, a parser yielding a hostname and a lookup returning fd 7. -/
theorem hello_peek_idempotence_witness :
    (handle_connection_client_hello
        (mkConn ConnState.ACCEPTED 3 0 [1, 2] 4 [] 4 none)
        (fun _ => ParseResult.ok hostw) (fun _ => 7)).1.state =
      ConnState.CONNECTED ∧
    (handle_connection_client_hello
        (mkConn ConnState.ACCEPTED 3 0 [1, 2] 4 [] 4 none)
        (fun _ => ParseResult.ok hostw) (fun _ => 7)).1.hostname =
      some hostw ∧
    buffer_len (handle_connection_client_hello
        (mkConn ConnState.ACCEPTED 3 0 [1, 2] 4 [] 4 none)
        (fun _ => ParseResult.ok hostw) (fun _ => 7)).1.client.buffer =
      buffer_len (mkConn ConnState.ACCEPTED 3 0 [1, 2] 4 [] 4 none).client.buffer :=
  (hello_peek_idempotence (mkConn ConnState.ACCEPTED 3 0 [1, 2] 4 [] 4 none)
      (fun _ => ParseResult.ok hostw) (fun _ => 7)).2 hostw rfl rfl
    (by decide) (by decide)

/-- C8: error paths of the client-hello handoff on an ACCEPTED connection:
an incomplete parse leaves the record untouched (still ACCEPTED, nothing
closed); a no-hostname or unparseable result closes the record via
close_connection (ending CLOSED); a successful parse whose upstream lookup
fails ends CLOSED with the hostname not stored on the record, no
non-negative server fd retained, and exactly the client fd closed. -/
theorem hello_failure_paths (c : Connection) (parse : List Nat → ParseResult)
    (lookup : String → Int) (hacc : c.state = ConnState.ACCEPTED) :
    (parse (buffer_peek c.client.buffer 1460) = ParseResult.incomplete →
       handle_connection_client_hello c parse lookup = (c, [])) ∧
    (parse (buffer_peek c.client.buffer 1460) = ParseResult.noHostname →
       handle_connection_client_hello c parse lookup = close_connection c ∧
       (handle_connection_client_hello c parse lookup).1.state =
         ConnState.CLOSED) ∧
    (∀ k, parse (buffer_peek c.client.buffer 1460) = ParseResult.unparseable k →
       handle_connection_client_hello c parse lookup = close_connection c ∧
       (handle_connection_client_hello c parse lookup).1.state =
         ConnState.CLOSED) ∧
    (∀ hn, parse (buffer_peek c.client.buffer 1460) = ParseResult.ok hn →
       lookup hn < 0 →
       (handle_connection_client_hello c parse lookup).1.state =
         ConnState.CLOSED ∧
       (handle_connection_client_hello c parse lookup).1.hostname =
         c.hostname ∧
       (handle_connection_client_hello c parse lookup).1.server.sockfd < 0 ∧
       (handle_connection_client_hello c parse lookup).2 =
         [c.client.sockfd]) := by
  refine ⟨?_, ?_, ?_, ?_⟩
  · intro hp
    unfold handle_connection_client_hello
    dsimp only
    rw [hp]
  · intro hp
    unfold handle_connection_client_hello
    dsimp only
    rw [hp]
    refine ⟨rfl, ?_⟩
    rw [close_connection_accepted c hacc, close_client_socket_fst]
    simp [hacc]
  · intro k hp
    unfold handle_connection_client_hello
    dsimp only
    rw [hp]
    refine ⟨rfl, ?_⟩
    rw [close_connection_accepted c hacc, close_client_socket_fst]
    simp [hacc]
  · intro hn hp hlk
    unfold handle_connection_client_hello
    dsimp only
    rw [hp]
    dsimp only
    rw [if_pos hlk]
    simp [close_connection, close_client_socket, close_server_socket, hacc]
    exact hlk

/-- Witness for C8 at a concrete ACCEPTED connection whose parse succeeds
but whose upstream lookup fails. -/
theorem hello_failure_paths_witness :
    (handle_connection_client_hello
        (mkConn ConnState.ACCEPTED 3 0 [1, 2] 4 [] 4 none)
        (fun _ => ParseResult.ok hostw) (fun _ => -1)).1.state =
      ConnState.CLOSED ∧
    (handle_connection_client_hello
        (mkConn ConnState.ACCEPTED 3 0 [1, 2] 4 [] 4 none)
        (fun _ => ParseResult.ok hostw) (fun _ => -1)).1.hostname =
      (mkConn ConnState.ACCEPTED 3 0 [1, 2] 4 [] 4 none).hostname ∧
    (handle_connection_client_hello
        (mkConn ConnState.ACCEPTED 3 0 [1, 2] 4 [] 4 none)
        (fun _ => ParseResult.ok hostw) (fun _ => -1)).1.server.sockfd < 0 ∧
    (handle_connection_client_hello
        (mkConn ConnState.ACCEPTED 3 0 [1, 2] 4 [] 4 none)
        (fun _ => ParseResult.ok hostw) (fun _ => -1)).2 =
      [(mkConn ConnState.ACCEPTED 3 0 [1, 2] 4 [] 4 none).client.sockfd] :=
  (hello_failure_paths (mkConn ConnState.ACCEPTED 3 0 [1, 2] 4 [] 4 none)
      (fun _ => ParseResult.ok hostw) (fun _ => -1) rfl).2.2.2 hostw rfl
    (by decide)

/-- C4: when accept returns an fd strictly above FD_SETSIZE, the record is
discarded without being inserted — the connection list is returned
unchanged and exactly that fd is closed; moreover accept_connection
preserves the invariant that every ACCEPTED record in the list holds an fd
within the ceiling. -/
theorem accept_fd_ceiling (fd : Int) (allocOk : Bool) (bufSize : Nat)
    (conns : List Connection) :
    (fd > FD_SETSIZE →
       (accept_connection fd allocOk bufSize conns).1 = conns ∧
       (allocOk = true →
         (accept_connection fd allocOk bufSize conns).2 = [fd])) ∧
    ((∀ c ∈ conns, c.state = ConnState.ACCEPTED →
        c.client.sockfd ≤ FD_SETSIZE) →
      ∀ c ∈ (accept_connection fd allocOk bufSize conns).1,
        c.state = ConnState.ACCEPTED → c.client.sockfd ≤ FD_SETSIZE) := by
  constructor
  · intro hfd
    have hneg : ¬ fd < 0 := by
      unfold FD_SETSIZE at hfd
      omega
    cases allocOk
    · simp [accept_connection]
    · simp [accept_connection, hneg, hfd, close_client_socket]
  · intro hinv c hc hst
    cases allocOk
    · simp [accept_connection] at hc
      exact hinv c hc hst
    · by_cases hneg : fd < 0
      · simp [accept_connection, hneg] at hc
        exact hinv c hc hst
      · by_cases hfd : fd > FD_SETSIZE
        · simp [accept_connection, hneg, hfd] at hc
          exact hinv c hc hst
        · simp [accept_connection, hneg, hfd] at hc
          cases hc with
          | inl h => rw [h]; exact le_of_not_lt hfd
          | inr h => exact hinv c h hst

/-- Witness for C4: accept of fd 2000 (above the 1024 ceiling) with a
fresh record leaves the empty list unchanged and closes exactly fd 2000. -/
theorem accept_fd_ceiling_witness :
    (accept_connection 2000 true 4 []).1 = [] ∧
    (accept_connection 2000 true 4 []).2 = [2000] :=
  ⟨((accept_fd_ceiling 2000 true 4 []).1 (by decide)).1,
   ((accept_fd_ceiling 2000 true 4 []).1 (by decide)).2 rfl⟩

/-- C7: each rx handler fails (returns 1) exactly when the recv result is
negative with a non-temporary errno or is 0 (orderly peer close); each tx
handler fails exactly when the send result is negative with a
non-temporary errno — a result of 0 is not a failure; and every
non-failing handler call touches the connection to the head of the
list. -/
theorem rx_tx_error_semantics (c : Connection) (evr : RecvEvent)
    (evs : SendEvent) (parse : List Nat → ParseResult)
    (lookup : String → Int) :
    (((handle_connection_client_rx c evr parse lookup).2.1 = 1 ↔
        ((buffer_recv c.client.buffer evr).2.1 < 0 ∧
         IS_TEMPORARY_SOCKERR (buffer_recv c.client.buffer evr).2.2 = false) ∨
        (buffer_recv c.client.buffer evr).2.1 = 0) ∧
     ((handle_connection_client_rx c evr parse lookup).2.1 = 0 →
        (handle_connection_client_rx c evr parse lookup).2.2 = true)) ∧
    (((handle_connection_server_rx c evr).2.1 = 1 ↔
        ((buffer_recv c.server.buffer evr).2.1 < 0 ∧
         IS_TEMPORARY_SOCKERR (buffer_recv c.server.buffer evr).2.2 = false) ∨
        (buffer_recv c.server.buffer evr).2.1 = 0) ∧
     ((handle_connection_server_rx c evr).2.1 = 0 →
        (handle_connection_server_rx c evr).2.2 = true)) ∧
    (((handle_connection_client_tx c evs).2.1 = 1 ↔
        ((buffer_send c.server.buffer evs).2.1 < 0 ∧
         IS_TEMPORARY_SOCKERR (buffer_send c.server.buffer evs).2.2 = false)) ∧
     ((handle_connection_client_tx c evs).2.1 = 0 →
        (handle_connection_client_tx c evs).2.2 = true)) ∧
    (((handle_connection_server_tx c evs).2.1 = 1 ↔
        ((buffer_send c.client.buffer evs).2.1 < 0 ∧
         IS_TEMPORARY_SOCKERR (buffer_send c.client.buffer evs).2.2 = false)) ∧
     ((handle_connection_server_tx c evs).2.1 = 0 →
        (handle_connection_server_tx c evs).2.2 = true)) := by
  refine ⟨⟨?_, ?_⟩, ⟨?_, ?_⟩, ⟨?_, ?_⟩, ⟨?_, ?_⟩⟩ <;>
    simp only [handle_connection_client_rx, handle_connection_server_rx,
      handle_connection_client_tx, handle_connection_server_tx] <;>
    split <;>
    simp_all <;>
    split <;>
    simp_all

/-- Witness for C7: an EOF recv is a failure, a temporary-errno recv and a
zero-byte send are successes that touch the connection. -/
theorem rx_tx_error_semantics_witness :
    (handle_connection_client_rx (mkConn ConnState.CONNECTED 3 5 [] 4 [] 4 none)
        RecvEvent.eof (fun _ => ParseResult.incomplete) (fun _ => -1)).2.1 = 1 ∧
    (handle_connection_client_tx (mkConn ConnState.CONNECTED 3 5 [] 4 [] 4 none)
        (SendEvent.sent 0)).2.2 = true :=
  ⟨((rx_tx_error_semantics (mkConn ConnState.CONNECTED 3 5 [] 4 [] 4 none)
      RecvEvent.eof (SendEvent.sent 0) (fun _ => ParseResult.incomplete)
      (fun _ => -1)).1.1).mpr (Or.inr (by decide)),
   ((rx_tx_error_semantics (mkConn ConnState.CONNECTED 3 5 [] 4 [] 4 none)
      RecvEvent.eof (SendEvent.sent 0) (fun _ => ParseResult.incomplete)
      (fun _ => -1)).2.2.1.2) (by decide)⟩

/-- C10: on an ACCEPTED connection, handle_connection_client_rx invokes
the client-hello handoff whenever the recv was neither a fatal error nor
an orderly close — in particular on a temporary error (EAGAIN,
EWOULDBLOCK, EINTR), which delivers no new bytes, so the handoff runs on
the previously buffered (possibly empty) data. -/
theorem client_rx_invokes_hello (c : Connection) (ev : RecvEvent)
    (parse : List Nat → ParseResult) (lookup : String → Int)
    (hacc : c.state = ConnState.ACCEPTED) :
    (¬ ((buffer_recv c.client.buffer ev).2.1 < 0 ∧
        IS_TEMPORARY_SOCKERR (buffer_recv c.client.buffer ev).2.2 = false) →
     (buffer_recv c.client.buffer ev).2.1 ≠ 0 →
     handle_connection_client_rx c ev parse lookup =
       ((handle_connection_client_hello
           { c with client :=
               { c.client with buffer := (buffer_recv c.client.buffer ev).1 } }
           parse lookup).1, 0, true)) ∧
    (∀ e, IS_TEMPORARY_SOCKERR e = true →
       handle_connection_client_rx c (RecvEvent.err e) parse lookup =
         ((handle_connection_client_hello c parse lookup).1, 0, true)) := by
  constructor
  · intro hnf hnz
    unfold handle_connection_client_rx
    dsimp only
    rw [if_neg, if_neg hnz, if_pos hacc]
    · intro hcon
      exact hnf (by simpa using hcon)
  · intro e hte
    unfold handle_connection_client_rx
    dsimp only
    have h1 : ¬ ((buffer_recv c.client.buffer (RecvEvent.err e)).2.1 < 0 ∧
        ¬ IS_TEMPORARY_SOCKERR
            (buffer_recv c.client.buffer (RecvEvent.err e)).2.2 = true) := by
      simp [buffer_recv, hte]
    have h2 : ¬ ((buffer_recv c.client.buffer (RecvEvent.err e)).2.1 = 0) := by
      simp [buffer_recv]
    rw [if_neg h1, if_neg h2, if_pos hacc]
    rfl

/-- Witness for C10: a temporary-errno recv (EAGAIN) on an ACCEPTED
connection with an empty buffer still runs the handoff: with a parser that
reports no hostname, the connection ends CLOSED even though no byte was
ever received. -/
theorem client_rx_invokes_hello_witness :
    handle_connection_client_rx (mkConn ConnState.ACCEPTED 3 0 [] 4 [] 4 none)
        (RecvEvent.err EAGAIN) (fun _ => ParseResult.noHostname)
        (fun _ => -1) =
      ((handle_connection_client_hello
          (mkConn ConnState.ACCEPTED 3 0 [] 4 [] 4 none)
          (fun _ => ParseResult.noHostname) (fun _ => -1)).1, 0, true) ∧
    (handle_connection_client_rx (mkConn ConnState.ACCEPTED 3 0 [] 4 [] 4 none)
        (RecvEvent.err EAGAIN) (fun _ => ParseResult.noHostname)
        (fun _ => -1)).1.state = ConnState.CLOSED :=
  ⟨(client_rx_invokes_hello (mkConn ConnState.ACCEPTED 3 0 [] 4 [] 4 none)
      (RecvEvent.err EAGAIN) (fun _ => ParseResult.noHostname)
      (fun _ => -1) rfl).2 EAGAIN (by decide),
   by decide⟩

/-- Helper: a send of `k` accepted bytes never fails, drops the sent bytes
from the server buffer and touches the connection. -/
theorem client_tx_sent (c : Connection) (k : Nat) :
    handle_connection_client_tx c (SendEvent.sent k) =
      ({ c with server := { c.server with buffer :=
           { data := c.server.buffer.data.drop
               (min k (buffer_len c.server.buffer)),
             size := c.server.buffer.size } } }, 0, true) := by
  unfold handle_connection_client_tx buffer_send
  dsimp only
  rw [if_neg]
  intro hcon
  rcases hcon with ⟨h1, -⟩
  omega

/-- Helper: a send error with a temporary errno is not a failure and makes
no progress. -/
theorem client_tx_err_temp (c : Connection) (e : Nat)
    (h : IS_TEMPORARY_SOCKERR e = true) :
    handle_connection_client_tx c (SendEvent.err e) = (c, 0, true) := by
  unfold handle_connection_client_tx buffer_send
  dsimp only
  rw [if_neg (fun hc => hc.2 h)]

/-- Helper: a send error with a non-temporary errno is a failure and makes
no progress. -/
theorem client_tx_err_fatal (c : Connection) (e : Nat)
    (h : IS_TEMPORARY_SOCKERR e = false) :
    handle_connection_client_tx c (SendEvent.err e) = (c, 1, false) := by
  unfold handle_connection_client_tx buffer_send
  dsimp only
  rw [if_pos ⟨by norm_num, by simp [h]⟩]

/-- C2 as stated is false: for a SERVER_CLOSED connection whose
client.buffer is already empty (len 0) but whose server.buffer still holds
bytes, one full tick leaves the state SERVER_CLOSED, not CLOSED — closure
is governed by server.buffer, not client.buffer. -/
theorem serverclosed_drain_counterexample :
    buffer_len (mkConn ConnState.SERVER_CLOSED 3 5 [] 4 [1, 2] 4
        none).client.buffer = 0 ∧
    handle_one_connection fdsAll fdsAll
        { oracle0 with clientSend := SendEvent.sent 1 }
        (mkConn ConnState.SERVER_CLOSED 3 5 [] 4 [1, 2] 4 none) =
      (some (mkConn ConnState.SERVER_CLOSED 3 5 [] 4 [2] 4 none), true) ∧
    (mkConn ConnState.SERVER_CLOSED 3 5 [] 4 [2] 4 none).state ≠
      ConnState.CLOSED := by
  refine ⟨rfl, by decide, by decide⟩

/-- C2 amended: once SERVER_CLOSED, the buffer being drained to the client
is server.buffer: over one tick its length never increases, the client
buffer is untouched, a tick that finds or leaves server.buffer empty moves
the state to CLOSED within that same tick, a fatal send error during the
tick (a non-temporary errno on the attempted send, i.e. the client fd was
writable and server.buffer non-empty) also moves the state to CLOSED
within that same tick, and the state only ever stays SERVER_CLOSED or
becomes CLOSED. -/
theorem serverclosed_drains_server_buffer (rfds wfds : Int → Bool)
    (o : Oracle) (c c' : Connection) (t : Bool)
    (hsc : c.state = ConnState.SERVER_CLOSED)
    (hrun : handle_one_connection rfds wfds o c = (some c', t)) :
    buffer_len c'.server.buffer ≤ buffer_len c.server.buffer ∧
    c'.client.buffer = c.client.buffer ∧
    (buffer_len c'.server.buffer = 0 → c'.state = ConnState.CLOSED) ∧
    (buffer_len c.server.buffer = 0 → c'.state = ConnState.CLOSED) ∧
    (∀ e, o.clientSend = SendEvent.err e → IS_TEMPORARY_SOCKERR e = false →
       wfds c.client.sockfd = true → 0 < buffer_len c.server.buffer →
       c'.state = ConnState.CLOSED) ∧
    (c'.state = ConnState.SERVER_CLOSED ∨ c'.state = ConnState.CLOSED) := by
  suffices hs : buffer_len c'.server.buffer ≤ buffer_len c.server.buffer ∧
      c'.client.buffer = c.client.buffer ∧
      (buffer_len c'.server.buffer = 0 → c'.state = ConnState.CLOSED) ∧
      (∀ e, o.clientSend = SendEvent.err e →
         IS_TEMPORARY_SOCKERR e = false → wfds c.client.sockfd = true →
         0 < buffer_len c.server.buffer → c'.state = ConnState.CLOSED) ∧
      (c'.state = ConnState.SERVER_CLOSED ∨ c'.state = ConnState.CLOSED) by
    exact ⟨hs.1, hs.2.1, hs.2.2.1,
      fun h0 => hs.2.2.1 (Nat.le_zero.mp (h0 ▸ hs.1)), hs.2.2.2.1,
      hs.2.2.2.2⟩
  obtain ⟨st, cl, sv, hn⟩ := c
  dsimp only at hsc
  subst hsc
  unfold handle_one_connection at hrun
  dsimp only at hrun
  split at hrun
  case isTrue hcond =>
    cases hev : o.clientSend with
    | sent k =>
        rw [hev, client_tx_sent] at hrun
        dsimp only at hrun
        split at hrun
        case isTrue hdone =>
          simp only [Prod.mk.injEq, Option.some.injEq] at hrun
          obtain ⟨hc', -⟩ := hrun
          subst hc'
          refine ⟨?_, rfl, fun _ => rfl, fun _ _ _ _ _ => rfl, Or.inr rfl⟩
          simp only [close_client_socket, buffer_len, List.length_drop]
          omega
        case isFalse hnd =>
          simp only [Prod.mk.injEq, Option.some.injEq] at hrun
          obtain ⟨hc', -⟩ := hrun
          subst hc'
          refine ⟨?_, rfl, fun h0 => absurd (Or.inr h0) hnd,
            fun e' hev' _ _ _ => SendEvent.noConfusion hev',
            Or.inl rfl⟩
          simp only [buffer_len, List.length_drop]
          omega
    | err e =>
        cases hte : IS_TEMPORARY_SOCKERR e
        · -- fatal error: err = 1, the arm closes the client socket
          rw [hev, client_tx_err_fatal _ _ hte] at hrun
          dsimp only at hrun
          rw [if_pos (Or.inl one_ne_zero)] at hrun
          simp only [Prod.mk.injEq, Option.some.injEq] at hrun
          obtain ⟨hc', -⟩ := hrun
          subst hc'
          exact ⟨le_refl _, rfl, fun _ => rfl, fun _ _ _ _ _ => rfl,
            Or.inr rfl⟩
        · -- temporary error: no progress, no failure
          rw [hev, client_tx_err_temp _ _ hte] at hrun
          dsimp only at hrun
          by_cases h0 : buffer_len
              ({ state := ConnState.SERVER_CLOSED, client := cl, server := sv,
                 hostname := hn } : Connection).server.buffer = 0
          · rw [if_pos (Or.inr h0)] at hrun
            simp only [Prod.mk.injEq, Option.some.injEq] at hrun
            obtain ⟨hc', -⟩ := hrun
            subst hc'
            exact ⟨le_refl _, rfl, fun _ => rfl, fun _ _ _ _ _ => rfl,
            Or.inr rfl⟩
          · rw [if_neg (fun hor => hor.elim (fun hh => hh rfl) h0)] at hrun
            simp only [Prod.mk.injEq, Option.some.injEq] at hrun
            obtain ⟨hc', -⟩ := hrun
            subst hc'
            exact ⟨le_refl _, rfl, fun hl => absurd hl h0,
              fun e' hev' hte' _ _ => by
                injection hev' with he
                subst he
                rw [hte] at hte'
                exact Bool.noConfusion hte',
              Or.inl rfl⟩
  case isFalse hcond =>
    split at hrun
    case isTrue hdone =>
      simp only [Prod.mk.injEq, Option.some.injEq] at hrun
      obtain ⟨hc', -⟩ := hrun
      subst hc'
      exact ⟨le_refl _, rfl, fun _ => rfl, fun _ _ _ _ _ => rfl,
            Or.inr rfl⟩
    case isFalse hnd =>
      simp only [Prod.mk.injEq, Option.some.injEq] at hrun
      obtain ⟨hc', -⟩ := hrun
      subst hc'
      exact ⟨le_refl _, rfl, fun h0 => absurd (Or.inr h0) hnd,
        fun _ _ _ hw hl => absurd ⟨hw, hl⟩ hcond, Or.inl rfl⟩

/-- Witness for C2 (amended) at a concrete SERVER_CLOSED connection with a
non-empty server buffer whose send fails with the non-temporary errno 13
(EACCES): the fatal-send-error clause of the theorem yields state CLOSED
within that same tick, the undelivered byte still buffered. -/
theorem serverclosed_drains_server_buffer_witness :
    (mkConn ConnState.CLOSED 3 5 [] 4 [7] 4 none).state =
      ConnState.CLOSED :=
  (serverclosed_drains_server_buffer fdsAll fdsAll
      { oracle0 with clientSend := SendEvent.err 13 }
      (mkConn ConnState.SERVER_CLOSED 3 5 [] 4 [7] 4 none)
      (mkConn ConnState.CLOSED 3 5 [] 4 [7] 4 none) false rfl
      (by decide)).2.2.2.2.1 13 rfl (by decide) rfl (by decide)

/-- Helper: any property that holds of the accumulators and of every
`some` result of handle_one_connection on the inputs holds of every record
in the walk's output. -/
theorem handle_connections_walk_pres (rfds wfds : Int → Bool)
    (P : Connection → Prop) :
    ∀ (inputs : List (Connection × Oracle))
      (headAcc tailAcc : List Connection),
      (∀ x ∈ headAcc, P x) → (∀ x ∈ tailAcc, P x) →
      (∀ p ∈ inputs, ∀ c t,
          handle_one_connection rfds wfds p.2 p.1 = (some c, t) → P c) →
      ∀ x ∈ handle_connections_walk rfds wfds inputs headAcc tailAcc, P x := by
  intro inputs
  induction inputs with
  | nil =>
      intro headAcc tailAcc hh ht _ x hx
      unfold handle_connections_walk at hx
      rcases List.mem_append.mp hx with h | h
      · exact hh x h
      · exact ht x (List.mem_reverse.mp h)
  | cons p rest ih =>
      intro headAcc tailAcc hh ht hi x hx
      unfold handle_connections_walk at hx
      rcases hr : handle_one_connection rfds wfds p.2 p.1 with ⟨oc, t⟩
      rw [hr] at hx
      have hip : ∀ c t', handle_one_connection rfds wfds p.2 p.1 =
          (some c, t') → P c :=
        hi p (List.mem_cons_self p rest)
      have hrest : ∀ q ∈ rest, ∀ c t',
          handle_one_connection rfds wfds q.2 q.1 = (some c, t') → P c :=
        fun q hq => hi q (List.mem_cons_of_mem p hq)
      cases oc with
      | none => exact ih headAcc tailAcc hh ht hrest x hx
      | some c =>
          have hpc : P c := hip c t hr
          cases t with
          | true =>
              refine ih (c :: headAcc) tailAcc ?_ ht hrest x hx
              intro y hy
              rcases List.mem_cons.mp hy with rfl | hy'
              · exact hpc
              · exact hh y hy'
          | false =>
              refine ih headAcc (c :: tailAcc) hh ?_ hrest x hx
              intro y hy
              rcases List.mem_cons.mp hy with rfl | hy'
              · exact hpc
              · exact ht y hy'

/-- C1 as stated is false: a record that becomes CLOSED during the tick is
not removed in the same call.  A SERVER_CLOSED connection with an empty
server buffer is finalized to CLOSED by the tick yet survives in the
post-call list. -/
theorem closed_connection_survives_tick :
    handle_connections fdsNone fdsNone
        [(mkConn ConnState.SERVER_CLOSED 3 5 [] 4 [] 4 none, oracle0)] =
      [mkConn ConnState.CLOSED 3 5 [] 4 [] 4 none] ∧
    (mkConn ConnState.CLOSED 3 5 [] 4 [] 4 none).state = ConnState.CLOSED :=
  ⟨by decide, rfl⟩

/-- C1 amended: a record visited in state CLOSED is removed and freed by
that very call (the safe-remove walk), so every CLOSED record remaining
after handle_connections entered the call in a non-CLOSED state — it was
finalized to CLOSED during the tick and is reaped on the next call. -/
theorem handle_connections_reaps_visited_closed (rfds wfds : Int → Bool)
    (inputs : List (Connection × Oracle)) :
    (∀ p ∈ inputs, p.1.state = ConnState.CLOSED →
       handle_one_connection rfds wfds p.2 p.1 = (none, false)) ∧
    (∀ c' ∈ handle_connections rfds wfds inputs,
       c'.state = ConnState.CLOSED →
       ∃ p ∈ inputs, p.1.state ≠ ConnState.CLOSED ∧
         ∃ t, handle_one_connection rfds wfds p.2 p.1 = (some c', t)) := by
  constructor
  · intro p _ hst
    obtain ⟨c, o⟩ := p
    obtain ⟨st, cl, sv, hn⟩ := c
    dsimp only at hst
    subst hst
    rfl
  · intro c' hc' hst
    revert hst
    refine handle_connections_walk_pres rfds wfds
      (fun x => x.state = ConnState.CLOSED →
        ∃ p ∈ inputs, p.1.state ≠ ConnState.CLOSED ∧
          ∃ t, handle_one_connection rfds wfds p.2 p.1 = (some x, t))
      inputs [] [] (by intro x hx; cases hx) (by intro x hx; cases hx)
      ?_ c' hc'
    intro p hp c t hr _
    refine ⟨p, hp, ?_, t, hr⟩
    intro hclosed
    obtain ⟨pc, po⟩ := p
    obtain ⟨st, cl, sv, hn⟩ := pc
    dsimp only at hclosed
    subst hclosed
    rw [show handle_one_connection rfds wfds po
          ⟨ConnState.CLOSED, cl, sv, hn⟩ = (none, false) from rfl] at hr
    cases hr

/-- Witness for C1 (amended): a concrete CLOSED record is removed by the
tick, via the first conjunct of the theorem. -/
theorem handle_connections_reaps_visited_closed_witness :
    handle_one_connection fdsNone fdsNone oracle0
        (mkConn ConnState.CLOSED 3 5 [] 4 [] 4 none) = (none, false) :=
  (handle_connections_reaps_visited_closed fdsNone fdsNone
      [(mkConn ConnState.CLOSED 3 5 [] 4 [] 4 none, oracle0)]).1
    (mkConn ConnState.CLOSED 3 5 [] 4 [] 4 none, oracle0)
    (List.mem_singleton.mpr rfl) rfl

/-- Spec-side definition (transcribed from the claim's per-state table):
the fds a connection is prescribed to add to the read set. -/
def specAddR (c : Connection) : List Int :=
  match c.state with
  | ConnState.CONNECTED =>
      (if 0 < buffer_room c.server.buffer then [c.server.sockfd] else []) ++
      (if 0 < buffer_room c.client.buffer then [c.client.sockfd] else [])
  | ConnState.ACCEPTED =>
      if 0 < buffer_room c.client.buffer then [c.client.sockfd] else []
  | _ => []

/-- Spec-side definition (transcribed from the claim's per-state table):
the fds a connection is prescribed to add to the write set. -/
def specAddW (c : Connection) : List Int :=
  match c.state with
  | ConnState.CONNECTED =>
      (if 0 < buffer_len c.client.buffer then [c.server.sockfd] else []) ++
      (if 0 < buffer_len c.server.buffer then [c.client.sockfd] else [])
  | ConnState.ACCEPTED =>
      if 0 < buffer_len c.server.buffer then [c.client.sockfd] else []
  | ConnState.SERVER_CLOSED => [c.client.sockfd]
  | ConnState.CLIENT_CLOSED => [c.server.sockfd]
  | _ => []

/-- The fds whose values the source folds into the running maximum in each
state arm, whether or not they were added to a set (connection.c:148, 157,
164, 169). -/
def specTrackedFds (c : Connection) : List Int :=
  match c.state with
  | ConnState.CONNECTED => [c.server.sockfd, c.client.sockfd]
  | ConnState.ACCEPTED => [c.client.sockfd]
  | ConnState.SERVER_CLOSED => [c.client.sockfd]
  | ConnState.CLIENT_CLOSED => [c.server.sockfd]
  | _ => []

/-- Helper: membership in an fd-set after FD_SET. -/
theorem mem_fdset_add (f x : Int) (s : List Int) :
    f ∈ fdset_add x s ↔ f = x ∨ f ∈ s := by
  unfold fdset_add
  split
  case isTrue h =>
    constructor
    · exact Or.inr
    · rintro (rfl | hf)
      · exact h
      · exact hf
  case isFalse h => exact List.mem_cons

/-- C6 counterexample to the max clause: a CONNECTED connection with a
full server buffer (no room, so its server fd joins neither set) and an
empty client buffer still folds server fd 9 into the maximum; the call
returns 9 although the only fd added to either set is 3 and the input
maximum was 0. -/
theorem fd_set_max_counterexample :
    fd_set_connections [mkConn ConnState.CONNECTED 3 9 [] 1 [0] 1 none]
        [] [] 0 = ([3], [3], 9) ∧
    (9 : Int) ∉
      (fd_set_connections [mkConn ConnState.CONNECTED 3 9 [] 1 [0] 1 none]
        [] [] 0).1 ∧
    (9 : Int) ∉
      (fd_set_connections [mkConn ConnState.CONNECTED 3 9 [] 1 [0] 1 none]
        [] [] 0).2.1 ∧
    (9 : Int) ≠ 0 := by decide

/-- C6 amended: fd_set_connections adds to the read and write sets exactly
the fds prescribed by the per-state table, but the returned maximum folds
in every fd the state arm tracks (CONNECTED: both fds; ACCEPTED and
SERVER_CLOSED: the client fd; CLIENT_CLOSED: the server fd) together with
the input value — tracked fds enter the maximum even when no condition
added them to a set. -/
theorem fd_set_connections_spec (conns : List Connection)
    (rfds wfds : List Int) (maxfd : Int) :
    (∀ f, f ∈ (fd_set_connections conns rfds wfds maxfd).1 ↔
       f ∈ rfds ∨ ∃ c ∈ conns, f ∈ specAddR c) ∧
    (∀ f, f ∈ (fd_set_connections conns rfds wfds maxfd).2.1 ↔
       f ∈ wfds ∨ ∃ c ∈ conns, f ∈ specAddW c) ∧
    (fd_set_connections conns rfds wfds maxfd).2.2 =
      List.foldl (fun m c => List.foldl MAX m (specTrackedFds c))
        maxfd conns := by
  induction conns generalizing rfds wfds maxfd with
  | nil =>
      refine ⟨fun f => ?_, fun f => ?_, rfl⟩ <;> simp [fd_set_connections]
  | cons c rest ih =>
      obtain ⟨st, cl, sv, hn⟩ := c
      cases st <;>
        refine ⟨fun f => ?_, fun f => ?_, ?_⟩ <;>
        simp only [fd_set_connections, specAddR, specAddW, specTrackedFds,
          ih, mem_fdset_add, List.mem_cons, List.mem_append, List.foldl,
          List.mem_singleton, List.not_mem_nil, exists_eq_or_imp] <;>
        (try split_ifs) <;>
        (try simp [mem_fdset_add]) <;>
        (try tauto)

/-- The hostname/state invariant the code maintains: a CONNECTED record
has a populated hostname, and a populated hostname occurs only in
CONNECTED, CLIENT_CLOSED, SERVER_CLOSED or CLOSED (a record finalized to
CLOSED after a successful parse keeps its hostname until freed). -/
def hostnameInv (c : Connection) : Prop :=
  (c.state = ConnState.CONNECTED → c.hostname ≠ none) ∧
  (c.hostname ≠ none →
    (c.state = ConnState.CONNECTED ∨ c.state = ConnState.CLIENT_CLOSED ∨
     c.state = ConnState.SERVER_CLOSED ∨ c.state = ConnState.CLOSED))

/-- Helper: closing the client socket always re-establishes the hostname
invariant (the new state is CLIENT_CLOSED or CLOSED). -/
theorem hostnameInv_close_client_fst (c : Connection) :
    hostnameInv (close_client_socket c).1 := by
  unfold hostnameInv close_client_socket
  dsimp only
  split <;> exact ⟨by simp, fun _ => by simp⟩

/-- Helper: closing the server socket always re-establishes the hostname
invariant (the new state is CLOSED or SERVER_CLOSED). -/
theorem hostnameInv_close_server_fst (c : Connection) :
    hostnameInv (close_server_socket c).1 := by
  unfold hostnameInv close_server_socket
  dsimp only
  split <;> exact ⟨by simp, fun _ => by simp⟩

/-- Helper: close_connection preserves the hostname invariant. -/
theorem hostnameInv_close_connection (c : Connection) (h : hostnameInv c) :
    hostnameInv (close_connection c).1 := by
  obtain ⟨st, cl, sv, hn⟩ := c
  cases st <;>
    simp_all [hostnameInv, close_connection, close_client_socket,
      close_server_socket]

/-- Helper: the client-hello handoff preserves the hostname invariant. -/
theorem hostnameInv_hello (c : Connection) (parse : List Nat → ParseResult)
    (lookup : String → Int) (h : hostnameInv c) :
    hostnameInv (handle_connection_client_hello c parse lookup).1 := by
  unfold handle_connection_client_hello
  dsimp only
  cases hp : parse (buffer_peek c.client.buffer 1460) <;> dsimp only
  · exact h
  · exact hostnameInv_close_connection _ h
  · exact hostnameInv_close_connection _ h
  · split
    · exact hostnameInv_close_connection _ h
    · split
      · exact hostnameInv_close_connection _ (hostnameInv_close_server_fst _)
      · exact ⟨fun _ => by simp, fun _ => Or.inl rfl⟩

/-- Helper: client rx preserves the hostname invariant. -/
theorem hostnameInv_client_rx (c : Connection) (ev : RecvEvent)
    (parse : List Nat → ParseResult) (lookup : String → Int)
    (h : hostnameInv c) :
    hostnameInv (handle_connection_client_rx c ev parse lookup).1 := by
  unfold handle_connection_client_rx
  dsimp only
  split
  · exact h
  · split
    · exact h
    · split
      · exact hostnameInv_hello _ _ _ h
      · exact h

/-- Helper: server rx preserves the hostname invariant. -/
theorem hostnameInv_server_rx (c : Connection) (ev : RecvEvent)
    (h : hostnameInv c) :
    hostnameInv (handle_connection_server_rx c ev).1 := by
  unfold handle_connection_server_rx
  dsimp only
  split
  · exact h
  · split <;> exact h

/-- Helper: client tx preserves the hostname invariant. -/
theorem hostnameInv_client_tx (c : Connection) (ev : SendEvent)
    (h : hostnameInv c) :
    hostnameInv (handle_connection_client_tx c ev).1 := by
  unfold handle_connection_client_tx
  dsimp only
  split <;> exact h

/-- Helper: server tx preserves the hostname invariant. -/
theorem hostnameInv_server_tx (c : Connection) (ev : SendEvent)
    (h : hostnameInv c) :
    hostnameInv (handle_connection_server_tx c ev).1 := by
  unfold handle_connection_server_tx
  dsimp only
  split <;> exact h

set_option maxHeartbeats 1000000 in
/-- Helper: the client half of the dispatch arm preserves the hostname
invariant. -/
theorem hostnameInv_client_half (rfds wfds : Int → Bool) (o : Oracle)
    (c : Connection) (t0 : Bool) (h : hostnameInv c) :
    ∀ c' t, handle_client_half rfds wfds o c t0 = (some c', t) →
      hostnameInv c' := by
  intro c' t hr
  unfold handle_client_half at hr
  dsimp only at hr
  simp only [Prod.mk.injEq, Option.some.injEq] at hr
  obtain ⟨hc', -⟩ := hr
  subst hc'
  split <;> split <;> split <;> (try dsimp only) <;>
    first
      | exact hostnameInv_close_client_fst _
      | exact hostnameInv_client_tx _ _ (hostnameInv_client_rx _ _ _ _ h)
      | exact hostnameInv_client_tx _ _ h
      | exact hostnameInv_client_rx _ _ _ _ h
      | exact h

set_option maxHeartbeats 1000000 in
/-- Helper: one dispatch step preserves the hostname invariant on the
surviving record. -/
theorem hostnameInv_tick (rfds wfds : Int → Bool) (o : Oracle)
    (c c' : Connection) (t : Bool) (h : hostnameInv c)
    (hr : handle_one_connection rfds wfds o c = (some c', t)) :
    hostnameInv c' := by
  obtain ⟨st, cl, sv, hn⟩ := c
  cases st <;> unfold handle_one_connection at hr <;> dsimp only at hr
  case NEW =>
    simp only [Prod.mk.injEq, Option.some.injEq] at hr
    obtain ⟨hc', -⟩ := hr
    subst hc'
    exact h
  case ACCEPTED =>
    exact hostnameInv_client_half _ _ _ _ _ h _ _ hr
  case CONNECTED =>
    refine hostnameInv_client_half _ _ _ _ _ ?_ _ _ hr
    split <;> split <;> split <;>
      first
        | exact hostnameInv_close_server_fst _
        | exact hostnameInv_server_tx _ _ (hostnameInv_server_rx _ _ h)
        | exact hostnameInv_server_tx _ _ h
        | exact hostnameInv_server_rx _ _ h
        | exact h
  case SERVER_CLOSED =>
    simp only [Prod.mk.injEq, Option.some.injEq] at hr
    obtain ⟨hc', -⟩ := hr
    subst hc'
    split <;> split <;>
      first
        | exact hostnameInv_close_client_fst _
        | exact hostnameInv_client_tx _ _ h
        | exact h
  case CLIENT_CLOSED =>
    simp only [Prod.mk.injEq, Option.some.injEq] at hr
    obtain ⟨hc', -⟩ := hr
    subst hc'
    split <;> split <;>
      first
        | exact hostnameInv_close_server_fst _
        | exact hostnameInv_server_tx _ _ h
        | exact h
  case CLOSED =>
    exact absurd hr (by simp)

/-- Concrete readiness set containing a single fd. -/
def rset (k : Int) : Int → Bool := fun f => f == k

/-- Oracle for the C9 run: the client delivers one byte, the parser
extracts a hostname, the lookup returns upstream fd 5. -/
def oracle9 : Oracle :=
  { oracle0 with
    clientRecv := RecvEvent.data [1],
    parse := fun _ => ParseResult.ok hostw,
    lookup := fun _ => 5 }

/-- C9 as stated is false: a record reachable by accept, a successful
handoff (ACCEPTED to CONNECTED), a server EOF (to SERVER_CLOSED) and a
drained tick (to CLOSED) still carries its hostname while its state is
CLOSED — hostname is not confined to
{CONNECTED, CLIENT_CLOSED, SERVER_CLOSED}. -/
theorem closed_record_retains_hostname :
    (accept_connection 3 true 10 []).1 =
      [mkConn ConnState.ACCEPTED 3 0 [] 10 [] 10 none] ∧
    handle_one_connection (rset 3) fdsNone oracle9
        (mkConn ConnState.ACCEPTED 3 0 [] 10 [] 10 none) =
      (some (mkConn ConnState.CONNECTED 3 5 [1] 10 [] 10 (some hostw)),
       true) ∧
    handle_one_connection (rset 5) fdsNone oracle0
        (mkConn ConnState.CONNECTED 3 5 [1] 10 [] 10 (some hostw)) =
      (some (mkConn ConnState.SERVER_CLOSED 3 5 [1] 10 [] 10 (some hostw)),
       false) ∧
    handle_one_connection fdsNone fdsNone oracle0
        (mkConn ConnState.SERVER_CLOSED 3 5 [1] 10 [] 10 (some hostw)) =
      (some (mkConn ConnState.CLOSED 3 5 [1] 10 [] 10 (some hostw)),
       false) ∧
    (mkConn ConnState.CLOSED 3 5 [1] 10 [] 10 (some hostw)).state =
      ConnState.CLOSED ∧
    (mkConn ConnState.CLOSED 3 5 [1] 10 [] 10 (some hostw)).hostname ≠
      none := by decide

/-- C9 amended: every record the accept path inserts and every record a
dispatch tick leaves in the list satisfies hostnameInv: CONNECTED implies
a populated hostname, and a populated hostname occurs only in CONNECTED,
CLIENT_CLOSED, SERVER_CLOSED or CLOSED (retained after a successful parse
until the CLOSED record is reaped). -/
theorem hostname_states (rfds wfds : Int → Bool) (fd : Int)
    (allocOk : Bool) (bufSize : Nat) (conns : List Connection)
    (inputs : List (Connection × Oracle)) :
    ((∀ x ∈ conns, hostnameInv x) →
       ∀ x ∈ (accept_connection fd allocOk bufSize conns).1, hostnameInv x) ∧
    ((∀ p ∈ inputs, hostnameInv p.1) →
       ∀ x ∈ handle_connections rfds wfds inputs, hostnameInv x) := by
  constructor
  · intro hc x hx
    unfold accept_connection at hx
    split at hx
    · exact hc x hx
    · split at hx
      · exact hc x hx
      · split at hx
        · exact hc x hx
        · rcases List.mem_cons.mp hx with rfl | hx'
          · exact ⟨by simp [new_connection], by simp [new_connection]⟩
          · exact hc x hx'
  · intro hp x hx
    exact handle_connections_walk_pres rfds wfds hostnameInv inputs [] []
      (by intro y hy; cases hy) (by intro y hy; cases hy)
      (fun p hmem c t hr => hostnameInv_tick rfds wfds p.2 p.1 c t
        (hp p hmem) hr) x hx

/-- Witness for C9 (amended): the invariant holds of the record a tick
leaves behind from a concrete SERVER_CLOSED connection carrying a
hostname. -/
theorem hostname_states_witness :
    hostnameInv (mkConn ConnState.CLOSED 3 5 [1] 10 [] 10 (some hostw)) :=
  (hostname_states fdsNone fdsNone 0 true 0 []
      [(mkConn ConnState.SERVER_CLOSED 3 5 [1] 10 [] 10 (some hostw),
        oracle0)]).2
    (fun p hp => by
      rw [List.mem_singleton] at hp
      subst hp
      exact ⟨by simp [mkConn], fun _ => by simp [mkConn]⟩)
    (mkConn ConnState.CLOSED 3 5 [1] 10 [] 10 (some hostw)) (by decide)

end Sniproxy
